import Mathlib

/-!
Verification of the student-projects submission app (`src/app.py`).

The program is a Streamlit form that validates four fields, resolves a
Year → Semester → Grade → Section folder path in Google Drive, uploads a
PDF, and inserts a metadata row in Supabase.  Below, the pure logic of the
program is embedded shallowly:

* the validation block of `main` (app.py lines 290-307) becomes
  `validationErrors`;
* the Drive folder search/create calls become operations on an explicit
  `DriveState`, with the provider's "first result" (`pageSize=1`) modelled
  as the first element of the folders list matching the query;
* fallible external calls (file create, permission grant, database insert)
  take an `Option String` fault parameter: `none` means the call succeeds,
  `some e` means the underlying client raised an error with message `e`;
* the post-submit workflow of `main` (lines 288-368) becomes
  `process_submission`, which also records which categories of external
  call were made.
-/

/-- An uploaded file as Streamlit presents it: a size (from metadata) and
the byte content returned by `read()`.  The code never checks that the two
agree, so they are modelled independently. -/
structure UploadedFile where
  size : Nat
  content : List Nat
deriving DecidableEq, Repr

/-- The user-controlled fields of the submission form. -/
structure FormInput where
  student_name : String
  project_title : String
  file : Option UploadedFile
deriving DecidableEq, Repr

/-- Python `str.strip()`: remove leading and trailing whitespace
characters (interior whitespace is kept). -/
def pyStrip (s : String) : String :=
  String.mk (((s.toList.dropWhile Char.isWhitespace).reverse.dropWhile
      Char.isWhitespace).reverse)

/-- Number of non-whitespace characters of a string (the quantity the
spec's validation sentences talk about; the code itself uses
`len(x.strip())` instead). -/
def nonWsCount (s : String) : Nat :=
  (s.toList.filter (fun c => !c.isWhitespace)).length

/-- app.py line 292: `not student_name or len(student_name.strip()) < 6`. -/
def nameInvalid (n : String) : Bool :=
  n == "" || (pyStrip n).length < 6

/-- app.py line 295: `not project_title or len(project_title.strip()) < 5`. -/
def titleInvalid (t : String) : Bool :=
  t == "" || (pyStrip t).length < 5

/-- app.py line 298: `uploaded_file is None`. -/
def fileMissing (f : Option UploadedFile) : Bool :=
  f.isNone

/-- app.py line 301: `uploaded_file and uploaded_file.size > 10 * 1024 * 1024`. -/
def fileOversized : Option UploadedFile → Bool
  | none => false
  | some u => 10 * 1024 * 1024 < u.size

/-- The four error strings appended in app.py lines 293, 296, 299, 302. -/
def msgName : String := "⚠️ يجب إدخال اسم الطالب الثلاثي (6 أحرف على الأقل)"

/-- Error for a missing/short project title (app.py line 296). -/
def msgTitle : String := "⚠️ يجب إدخال عنوان المشروع (5 أحرف على الأقل)"

/-- Error for a missing file (app.py line 299). -/
def msgFile : String := "⚠️ يجب اختيار ملف PDF للمشروع"

/-- Error for an oversized file (app.py line 302). -/
def msgSize : String := "⚠️ حجم الملف يتجاوز الحد المسموح (10 MB)"

/-- The validation block of `main` (app.py lines 290-302): each violated
check appends its message to `errors`, in order. -/
def validationErrors (inp : FormInput) : List String :=
  (if nameInvalid inp.student_name then [msgName] else []) ++
  (if titleInvalid inp.project_title then [msgTitle] else []) ++
  (if fileMissing inp.file then [msgFile] else []) ++
  (if fileOversized inp.file then [msgSize] else [])

example : validationErrors ⟨"", "", none⟩ = [msgName, msgTitle, msgFile] := by decide
example : validationErrors ⟨"a b c d", "ab cd", some ⟨5, []⟩⟩ = [] := by decide
example : nonWsCount "a b c d" = 4 := by decide

/-! ## Google Drive model

Folders and files live in one `DriveState`.  Drive assigns opaque ids; the
model hands them out from a counter.  A search query returns results in
the list order of the state; `pageSize=1` in `find_or_create_folder` means
the call sees at most the first match. -/

/-- A Drive folder: provider id, name, and the optional parent recorded in
its `parents` metadata (none = created at the service root). -/
structure Folder where
  fid : Nat
  name : String
  parent : Option Nat
deriving DecidableEq, Repr

/-- A permission granted on a file (`permissions().create` body). -/
structure Permission where
  ptype : String
  role : String
deriving DecidableEq, Repr

/-- A Drive file: id, name, containing folder, byte content, and granted
permissions. -/
structure DriveFile where
  fid : Nat
  name : String
  folder : Nat
  content : List Nat
  perms : List Permission
deriving DecidableEq, Repr

/-- The cloud storage backend: folders, files, next fresh id. -/
structure DriveState where
  folders : List Folder
  files : List DriveFile
  nextId : Nat
deriving DecidableEq, Repr

/-- Whether a folder matches the search query of app.py lines 102-104:
exact name match, folder mime type (only folders are searched), and —
only when a parent id is supplied — `'{parent_id}' in parents`. -/
def folderMatches (name : String) (parent_id : Option Nat) (f : Folder) : Bool :=
  f.name == name &&
    (match parent_id with
     | some p => f.parent == some p
     | none => true)

/-- All folders of a list matching the query, in list order. -/
def searchList (fs : List Folder) (name : String) (parent_id : Option Nat) :
    List Folder :=
  fs.filter (folderMatches name parent_id)

/-- The folder search `service.files().list(q=..., pageSize=1)` of
app.py lines 106-111, before the `pageSize=1` truncation. -/
def searchFolders (s : DriveState) (name : String) (parent_id : Option Nat) :
    List Folder :=
  searchList s.folders name parent_id

/-- app.py lines 88-134, `find_or_create_folder`: search for the folder;
if the (size-1) result page is non-empty return the id of its first file,
otherwise create a folder with the given name and optional parent and
return the new id. -/
def find_or_create_folder (s : DriveState) (folder_name : String)
    (parent_id : Option Nat) : DriveState × Nat :=
  match searchFolders s folder_name parent_id with
  | f :: _ => (s, f.fid)
  | [] =>
      ({ s with
          folders := s.folders ++ [⟨s.nextId, folder_name, parent_id⟩],
          nextId := s.nextId + 1 },
        s.nextId)

/-- app.py lines 136-158, `create_folder_structure`: thread
`find_or_create_folder` through Year → Semester → Grade → Section and
return the section-level folder id. -/
def create_folder_structure (s : DriveState) (year semester grade sect : String) :
    DriveState × Nat :=
  let r1 := find_or_create_folder s year none
  let r2 := find_or_create_folder r1.1 semester (some r1.2)
  let r3 := find_or_create_folder r2.1 grade (some r2.2)
  let r4 := find_or_create_folder r3.1 sect (some r3.2)
  r4

/-- The `webViewLink` Drive reports for a created file; provider-assigned,
modelled as a function of the file id. -/
def webViewLink (fid : Nat) : String :=
  "https://drive.google.com/file/d/" ++ toString fid ++ "/view"

/-- app.py lines 160-202, `upload_file_to_drive`: create the file under
`folder_id`, then grant the `type: anyone / role: reader` permission, and
return the shareable `webViewLink`.  `createErr`/`permErr` inject the
underlying client error of each API call (`none` = the call succeeds); an
exception at either step is wrapped as `فشل رفع الملف: ...`.  The returned
state is the backend after the run: when the permission step fails the
file created by the first step stays. -/
def upload_file_to_drive (s : DriveState) (file_content : List Nat)
    (file_name : String) (folder_id : Nat)
    (createErr permErr : Option String) : DriveState × Except String String :=
  match createErr with
  | some e => (s, .error ("فشل رفع الملف: " ++ e))
  | none =>
      let f : DriveFile := ⟨s.nextId, file_name, folder_id, file_content, []⟩
      let s1 : DriveState :=
        { s with files := s.files ++ [f], nextId := s.nextId + 1 }
      match permErr with
      | some e => (s1, .error ("فشل رفع الملف: " ++ e))
      | none =>
          let shared : DriveFile := { f with perms := [⟨"anyone", "reader"⟩] }
          ({ s1 with files := s.files ++ [shared] },
            .ok (webViewLink f.fid))

/-! ## Database model and submission workflow -/

/-- A row of the `submissions` table (app.py lines 336-345). -/
structure Submission where
  student_name : String
  project_title : String
  file_url : String
  grade_level : String
  sect : String
  year : String
  semester : String
  timestamp : String
deriving DecidableEq, Repr

/-- app.py lines 76-82, `save_submission`: insert the row; a client error
`e` is re-raised as `فشل حفظ البيانات: e`. -/
def save_submission (db : List Submission) (data : Submission)
    (dbErr : Option String) : Except String (List Submission) :=
  match dbErr with
  | some e => .error ("فشل حفظ البيانات: " ++ e)
  | none => .ok (db ++ [data])

/-- Python `student_name.replace(" ", "_")` (app.py line 323): the pattern
is a single character, so every space becomes an underscore. -/
def pyReplaceSpaces (s : String) : String :=
  String.mk (s.toList.map (fun c => if c = ' ' then '_' else c))

/-- Python `project_title[:30]` (app.py line 324): the first 30 characters
(the whole title when shorter). -/
def pySlice30 (s : String) : String :=
  String.mk (s.toList.take 30)

/-- app.py lines 323-324: the upload file name
`f"{safe_student_name}_{project_title[:30]}.pdf"`. -/
def generated_file_name (student_name project_title : String) : String :=
  pyReplaceSpaces student_name ++ "_" ++ pySlice30 project_title ++ ".pdf"

/-- The categories of external call the claims distinguish. -/
inductive ExtCall
  | folderResolution
  | fileUpload
  | dbInsert
deriving DecidableEq, Repr

/-- What one submission leaves behind: the storage and database states,
the validation errors shown, the `❌` failure message (if any), whether
the `✅` success message was shown, the link rendered on success, and the
categories of external call that were made, in order. -/
structure AppResult where
  drive : DriveState
  db : List Submission
  valErrors : List String
  failureMsg : Option String
  successShown : Bool
  fileUrl : Option String
  calls : List ExtCall
deriving DecidableEq, Repr

/-- The fault injection for one run: the underlying error of the Drive
file-create call, of the permission call, and of the database insert
(`none` = that call succeeds). -/
structure Faults where
  createErr : Option String
  permErr : Option String
  dbErr : Option String
deriving DecidableEq, Repr

/-- No injected faults: every external call succeeds. -/
def noFaults : Faults := ⟨none, none, none⟩

/-- app.py lines 288-368: the post-submit workflow of `main`.  Validation
errors abort before any external call; then folders are resolved, the
file uploaded, and the row inserted; an exception from upload or insert is
caught and shown as `❌ حدث خطأ أثناء رفع المشروع: ...` with no success
message and no rollback of storage side effects. -/
def process_submission (drive : DriveState) (db : List Submission)
    (current_year current_semester grade sect : String)
    (inp : FormInput) (faults : Faults) (ts : String) : AppResult :=
  let errors := validationErrors inp
  if errors ≠ [] then
    { drive := drive, db := db, valErrors := errors, failureMsg := none,
      successShown := false, fileUrl := none, calls := [] }
  else
    let rFolder := create_folder_structure drive current_year current_semester grade sect
    let fname := generated_file_name inp.student_name inp.project_title
    let content := (inp.file.map (·.content)).getD []
    let rUp := upload_file_to_drive rFolder.1 content fname rFolder.2
      faults.createErr faults.permErr
    match rUp.2 with
    | .error e =>
        { drive := rUp.1, db := db, valErrors := [],
          failureMsg := some ("❌ حدث خطأ أثناء رفع المشروع: " ++ e),
          successShown := false, fileUrl := none,
          calls := [.folderResolution, .fileUpload] }
    | .ok url =>
        let data : Submission :=
          { student_name := pyStrip inp.student_name,
            project_title := pyStrip inp.project_title,
            file_url := url, grade_level := grade, sect := sect,
            year := current_year, semester := current_semester,
            timestamp := ts }
        match save_submission db data faults.dbErr with
        | .error e =>
            { drive := rUp.1, db := db, valErrors := [],
              failureMsg := some ("❌ حدث خطأ أثناء رفع المشروع: " ++ e),
              successShown := false, fileUrl := none,
              calls := [.folderResolution, .fileUpload, .dbInsert] }
        | .ok db' =>
            { drive := rUp.1, db := db', valErrors := [], failureMsg := none,
              successShown := true, fileUrl := some url,
              calls := [.folderResolution, .fileUpload, .dbInsert] }

/-! ## Helper lemmas: validation -/

lemma mem_validationErrors_iff (inp : FormInput) (m : String) :
    m ∈ validationErrors inp ↔
      (m = msgName ∧ nameInvalid inp.student_name = true) ∨
      (m = msgTitle ∧ titleInvalid inp.project_title = true) ∨
      (m = msgFile ∧ fileMissing inp.file = true) ∨
      (m = msgSize ∧ fileOversized inp.file = true) := by
  unfold validationErrors
  split_ifs <;> simp_all

lemma msgName_mem (inp : FormInput) :
    msgName ∈ validationErrors inp ↔ nameInvalid inp.student_name = true := by
  rw [mem_validationErrors_iff]
  have h1 : msgName ≠ msgTitle := by decide
  have h2 : msgName ≠ msgFile := by decide
  have h3 : msgName ≠ msgSize := by decide
  simp [h1, h2, h3]

lemma msgTitle_mem (inp : FormInput) :
    msgTitle ∈ validationErrors inp ↔ titleInvalid inp.project_title = true := by
  rw [mem_validationErrors_iff]
  have h1 : msgTitle ≠ msgName := by decide
  have h2 : msgTitle ≠ msgFile := by decide
  have h3 : msgTitle ≠ msgSize := by decide
  simp [h1, h2, h3]

lemma msgFile_mem (inp : FormInput) :
    msgFile ∈ validationErrors inp ↔ fileMissing inp.file = true := by
  rw [mem_validationErrors_iff]
  have h1 : msgFile ≠ msgName := by decide
  have h2 : msgFile ≠ msgTitle := by decide
  have h3 : msgFile ≠ msgSize := by decide
  simp [h1, h2, h3]

lemma msgSize_mem (inp : FormInput) :
    msgSize ∈ validationErrors inp ↔ fileOversized inp.file = true := by
  rw [mem_validationErrors_iff]
  have h1 : msgSize ≠ msgName := by decide
  have h2 : msgSize ≠ msgTitle := by decide
  have h3 : msgSize ≠ msgFile := by decide
  simp [h1, h2, h3]

lemma validationErrors_nodup (inp : FormInput) : (validationErrors inp).Nodup := by
  unfold validationErrors
  split_ifs <;> decide

lemma validationErrors_length_le_three (inp : FormInput) :
    (validationErrors inp).length ≤ 3 := by
  obtain ⟨n, t, f⟩ := inp
  unfold validationErrors
  cases f <;> simp [fileMissing, fileOversized] <;> split_ifs <;> simp

lemma nameInvalid_iff (n : String) :
    nameInvalid n = true ↔ (pyStrip n).length < 6 := by
  simp only [nameInvalid, Bool.or_eq_true, beq_iff_eq, decide_eq_true_eq]
  constructor
  · rintro (rfl | h)
    · decide
    · exact h
  · exact fun h => Or.inr h

lemma titleInvalid_iff (t : String) :
    titleInvalid t = true ↔ (pyStrip t).length < 5 := by
  simp only [titleInvalid, Bool.or_eq_true, beq_iff_eq, decide_eq_true_eq]
  constructor
  · rintro (rfl | h)
    · decide
    · exact h
  · exact fun h => Or.inr h

lemma filter_nonWs_dropWhile (l : List Char) :
    (l.dropWhile Char.isWhitespace).filter (fun c => !c.isWhitespace)
      = l.filter (fun c => !c.isWhitespace) := by
  induction l with
  | nil => rfl
  | cons a t ih =>
      cases h : a.isWhitespace with
      | true => simp [List.dropWhile_cons, List.filter_cons, h, ih]
      | false => simp [List.dropWhile_cons, List.filter_cons, h]

/-- Stripping only leading/trailing whitespace keeps every non-whitespace
character, so the stripped length dominates the non-whitespace count. -/
lemma nonWsCount_le_pyStrip_length (n : String) :
    nonWsCount n ≤ (pyStrip n).length := by
  unfold nonWsCount pyStrip
  have h1 := filter_nonWs_dropWhile n.toList
  have h2 := filter_nonWs_dropWhile (n.toList.dropWhile Char.isWhitespace).reverse
  calc (n.toList.filter (fun c => !c.isWhitespace)).length
      = ((n.toList.dropWhile Char.isWhitespace).filter
          (fun c => !c.isWhitespace)).length := by rw [h1]
    _ = ((n.toList.dropWhile Char.isWhitespace).reverse.filter
          (fun c => !c.isWhitespace)).length := by
          rw [List.filter_reverse, List.length_reverse]
    _ = (((n.toList.dropWhile Char.isWhitespace).reverse.dropWhile
          Char.isWhitespace).filter (fun c => !c.isWhitespace)).length := by rw [h2]
    _ ≤ ((n.toList.dropWhile Char.isWhitespace).reverse.dropWhile
          Char.isWhitespace).length := List.length_filter_le _ _
    _ = (String.mk (((n.toList.dropWhile Char.isWhitespace).reverse.dropWhile
          Char.isWhitespace).reverse)).length := by
          simp [String.length, List.length_reverse]

/-! ## Helper lemmas: folder search and lookup-or-create -/

lemma searchList_append (fs gs : List Folder) (name : String) (p : Option Nat) :
    searchList (fs ++ gs) name p = searchList fs name p ++ searchList gs name p :=
  List.filter_append _ _

lemma head_append_of_some {α : Type} {l l' : List α} {a : α}
    (h : l.head? = some a) : (l ++ l').head? = some a := by
  cases l <;> simp_all

/-- A folder freshly created with the queried name and parent matches the
query that produced it. -/
lemma folderMatches_self (name : String) (p : Option Nat) (i : Nat) :
    folderMatches name p ⟨i, name, p⟩ = true := by
  cases p <;> simp [folderMatches]

/-- If the (pageSize-1) search page is non-empty, `find_or_create_folder`
returns the id of its first folder without touching the state. -/
lemma focf_of_head (s : DriveState) (name : String) (p : Option Nat) (f : Folder)
    (h : (searchFolders s name p).head? = some f) :
    find_or_create_folder s name p = (s, f.fid) := by
  unfold find_or_create_folder
  cases hs : searchFolders s name p with
  | nil => rw [hs] at h; simp at h
  | cons g t =>
      rw [hs] at h
      simp only [List.head?_cons, Option.some.injEq] at h
      rw [h]

/-- After any `find_or_create_folder` call, the state's folder list only
grew at the end, the files are untouched, and the same query now has a
first match carrying the returned id. -/
lemma focf_spec (s : DriveState) (name : String) (p : Option Nat) :
    ∃ tail f, (find_or_create_folder s name p).1.folders = s.folders ++ tail ∧
      (find_or_create_folder s name p).1.files = s.files ∧
      (searchFolders (find_or_create_folder s name p).1 name p).head? = some f ∧
      f.fid = (find_or_create_folder s name p).2 := by
  unfold find_or_create_folder
  cases hs : searchFolders s name p with
  | cons g t =>
      refine ⟨[], g, by simp, rfl, ?_, rfl⟩
      rw [hs]
      rfl
  | nil =>
      refine ⟨[⟨s.nextId, name, p⟩], ⟨s.nextId, name, p⟩, rfl, rfl, ?_, rfl⟩
      show (searchList (s.folders ++ [⟨s.nextId, name, p⟩]) name p).head? = _
      rw [searchList_append]
      have h0 : searchList s.folders name p = [] := hs
      rw [h0]
      simp [searchList, List.filter_cons, folderMatches_self]

/-- Extending the folder list at the end does not change the first match
of a query that already had one, so `find_or_create_folder` still returns
the same id. -/
lemma focf_extend (s s' : DriveState) (name : String) (p : Option Nat) (f : Folder)
    (extra : List Folder)
    (hh : (searchFolders s name p).head? = some f)
    (hext : s'.folders = s.folders ++ extra) :
    find_or_create_folder s' name p = (s', f.fid) := by
  apply focf_of_head
  show (searchList s'.folders name p).head? = some f
  rw [hext, searchList_append]
  exact head_append_of_some hh

/-! ## Helper lemmas: workflow reduction -/

/-- With a non-empty error list the workflow stops before any external
call: state untouched, errors shown, nothing else. -/
lemma process_submission_validation_failed (drive : DriveState) (db : List Submission)
    (y sem g sec ts : String) (faults : Faults) (inp : FormInput)
    (hv : validationErrors inp ≠ []) :
    process_submission drive db y sem g sec inp faults ts =
      { drive := drive, db := db, valErrors := validationErrors inp,
        failureMsg := none, successShown := false, fileUrl := none, calls := [] } := by
  simp only [process_submission]
  rw [if_pos hv]

/-! ## Claims -/

/-- C2 (corrected).  The code rejects the student name exactly when
`len(student_name.strip()) < 6`, i.e. when fewer than 6 characters remain
after removing leading and trailing whitespace — interior whitespace
counts.  Consequently every name with at least 6 non-whitespace
characters passes (second conjunct), but "fewer than 6 non-whitespace
characters" is not the rejection condition (see the counterexample). -/
theorem student_name_rule_strip (n t : String) (f : Option UploadedFile) :
    (msgName ∈ validationErrors ⟨n, t, f⟩ ↔ (pyStrip n).length < 6)
  ∧ (6 ≤ nonWsCount n → msgName ∉ validationErrors ⟨n, t, f⟩) := by
  constructor
  · rw [msgName_mem]
    exact nameInvalid_iff n
  · intro h hm
    rw [msgName_mem, nameInvalid_iff] at hm
    have hm' : (pyStrip n).length < 6 := hm
    have := nonWsCount_le_pyStrip_length n
    omega

/-- C2 witness: a name with 12 non-whitespace characters passes the rule. -/
theorem student_name_rule_strip_w :
    msgName ∉ validationErrors ⟨"Ahmed Ali Omar", "Title", none⟩ :=
  (student_name_rule_strip "Ahmed Ali Omar" "Title" none).2 (by decide)

/-- C2 counterexample: `"a b c d"` has only 4 non-whitespace characters,
yet the code accepts it (`len("a b c d".strip()) = 7 ≥ 6`), contradicting
"rejected exactly when ... fewer than 6 non-whitespace characters". -/
theorem student_name_rule_cex :
    nonWsCount "a b c d" < 6 ∧
    msgName ∉ validationErrors ⟨"a b c d", "", none⟩ := by
  decide

/-- C8 (corrected).  The code rejects the project title exactly when
`len(project_title.strip()) < 5`; interior whitespace counts, so a title
with fewer than 5 non-whitespace characters can still pass. -/
theorem project_title_rule_strip (n t : String) (f : Option UploadedFile) :
    (msgTitle ∈ validationErrors ⟨n, t, f⟩ ↔ (pyStrip t).length < 5)
  ∧ (5 ≤ nonWsCount t → msgTitle ∉ validationErrors ⟨n, t, f⟩) := by
  constructor
  · rw [msgTitle_mem]
    exact titleInvalid_iff t
  · intro h hm
    rw [msgTitle_mem, titleInvalid_iff] at hm
    have hm' : (pyStrip t).length < 5 := hm
    have := nonWsCount_le_pyStrip_length t
    omega

/-- C8 witness: a title with 5 non-whitespace characters passes. -/
theorem project_title_rule_strip_w :
    msgTitle ∉ validationErrors ⟨"Ahmed Ali Omar", "Title", none⟩ :=
  (project_title_rule_strip "Ahmed Ali Omar" "Title" none).2 (by decide)

/-- C8 counterexample: `"a b c"` has only 3 non-whitespace characters,
yet the code accepts it (`len("a b c".strip()) = 5 ≥ 5`), contradicting
"rejected exactly when ... fewer than 5 non-whitespace characters". -/
theorem project_title_rule_cex :
    nonWsCount "a b c" < 5 ∧
    msgTitle ∉ validationErrors ⟨"", "a b c", none⟩ := by
  decide

/-- C7 (confirmed).  A file of exactly 10 MiB passes the size rule; one
byte more triggers the size-limit error. -/
theorem file_size_boundary (n t : String) (content : List Nat) :
    msgSize ∉ validationErrors ⟨n, t, some ⟨10 * 1024 * 1024, content⟩⟩
  ∧ msgSize ∈ validationErrors ⟨n, t, some ⟨10 * 1024 * 1024 + 1, content⟩⟩ := by
  constructor
  · intro hm
    rw [msgSize_mem] at hm
    simp [fileOversized] at hm
  · rw [msgSize_mem]
    simp [fileOversized]

/-- C7 witness at a concrete form. -/
theorem file_size_boundary_w :
    msgSize ∈ validationErrors ⟨"", "", some ⟨10 * 1024 * 1024 + 1, []⟩⟩ :=
  (file_size_boundary "" "" []).2

/-- C10 (confirmed).  The size rule is only evaluated when a file was
chosen, so the missing-file and oversized-file errors never appear
together, and at most three of the four messages can be reported in one
submission. -/
theorem size_and_missing_exclusive (inp : FormInput) :
    ¬(msgFile ∈ validationErrors inp ∧ msgSize ∈ validationErrors inp)
  ∧ (validationErrors inp).length ≤ 3 := by
  refine ⟨?_, validationErrors_length_le_three inp⟩
  rintro ⟨h1, h2⟩
  rw [msgFile_mem] at h1
  rw [msgSize_mem] at h2
  cases hf : inp.file with
  | none => rw [hf] at h2; simp [fileOversized] at h2
  | some u => rw [hf] at h1; simp [fileMissing] at h1

/-- C10 witness at a concrete form. -/
theorem size_and_missing_exclusive_w :
    (validationErrors ⟨"", "", none⟩).length ≤ 3 :=
  (size_and_missing_exclusive ⟨"", "", none⟩).2

/-- C3 (corrected).  Every violated rule contributes its own distinct
message (no short-circuit), the messages are pairwise distinct, and a
submission with validation errors makes no external call and changes no
state; when the name, title and file-selection rules are all violated the
result is exactly the three corresponding messages.  (Four simultaneous
messages are impossible — see the counterexample.) -/
theorem validation_collects_all (drive : DriveState) (db : List Submission)
    (y sem g sec ts : String) (faults : Faults) (inp : FormInput)
    (hv : validationErrors inp ≠ []) :
    ((msgName ∈ validationErrors inp ↔ nameInvalid inp.student_name = true)
      ∧ (msgTitle ∈ validationErrors inp ↔ titleInvalid inp.project_title = true)
      ∧ (msgFile ∈ validationErrors inp ↔ fileMissing inp.file = true)
      ∧ (msgSize ∈ validationErrors inp ↔ fileOversized inp.file = true)
      ∧ (validationErrors inp).Nodup)
  ∧ process_submission drive db y sem g sec inp faults ts =
      { drive := drive, db := db, valErrors := validationErrors inp,
        failureMsg := none, successShown := false, fileUrl := none, calls := [] }
  ∧ (nameInvalid inp.student_name = true → titleInvalid inp.project_title = true →
      inp.file = none → validationErrors inp = [msgName, msgTitle, msgFile]) := by
  refine ⟨⟨msgName_mem inp, msgTitle_mem inp, msgFile_mem inp, msgSize_mem inp,
    validationErrors_nodup inp⟩,
    process_submission_validation_failed drive db y sem g sec ts faults inp hv, ?_⟩
  intro h1 h2 h3
  simp [validationErrors, h1, h2, h3, fileMissing, fileOversized]

/-- C3 witness: an all-empty form is rejected with the three messages and
makes no external call. -/
theorem validation_collects_all_w :
    process_submission ⟨[], [], 0⟩ [] "Y" "S" "G" "A" ⟨"", "", none⟩ noFaults "T" =
      { drive := ⟨[], [], 0⟩, db := [], valErrors := validationErrors ⟨"", "", none⟩,
        failureMsg := none, successShown := false, fileUrl := none, calls := [] } :=
  (validation_collects_all ⟨[], [], 0⟩ [] "Y" "S" "G" "A" "T" noFaults ⟨"", "", none⟩
    (by decide)).2.1

/-- C3 counterexample: no submission can produce four validation error
messages, because the size rule is only evaluated when a file was chosen;
the spec's "all four rules violated simultaneously" scenario does not
exist in the code. -/
theorem four_errors_cex : ¬ ∃ inp : FormInput, (validationErrors inp).length = 4 := by
  rintro ⟨inp, h⟩
  have := validationErrors_length_le_three inp
  omega

/-- C1 (corrected).  `find_or_create_folder` searches with `pageSize=1`:
whenever at least one matching folder exists it returns the id of the
first match (in the backend's result order) and creates nothing — this
covers the exactly-one case of the claim — and only when no match exists
does it create a new folder under the given parent (root if none) and
return the fresh id. -/
theorem find_or_create_first_match (s : DriveState) (name : String) (p : Option Nat) :
    (∀ f rest, searchFolders s name p = f :: rest →
        find_or_create_folder s name p = (s, f.fid))
  ∧ (searchFolders s name p = [] →
        find_or_create_folder s name p =
          ({ s with
              folders := s.folders ++ [⟨s.nextId, name, p⟩],
              nextId := s.nextId + 1 },
            s.nextId)) := by
  constructor
  · intro f rest h
    exact focf_of_head s name p f (by rw [h]; rfl)
  · intro h
    unfold find_or_create_folder
    rw [h]

/-- C1 witness: both branches at concrete storage states — a lookup that
hits an existing folder, and a lookup that creates one. -/
theorem find_or_create_first_match_w :
    find_or_create_folder ⟨[⟨7, "Y", none⟩], [], 8⟩ "Y" none
      = (⟨[⟨7, "Y", none⟩], [], 8⟩, 7)
  ∧ find_or_create_folder ⟨[], [], 0⟩ "Y" none = (⟨[⟨0, "Y", none⟩], [], 1⟩, 0) :=
  ⟨(find_or_create_first_match ⟨[⟨7, "Y", none⟩], [], 8⟩ "Y" none).1
      ⟨7, "Y", none⟩ [] (by decide),
    (find_or_create_first_match ⟨[], [], 0⟩ "Y" none).2 (by decide)⟩

/-- C1 counterexample: with two folders both named "2025" in storage
(more than one match), the call returns the first existing folder's id
and creates nothing, while the claim says it should create a new folder
and return the new id. -/
theorem find_or_create_duplicate_match_cex :
    (searchFolders ⟨[⟨0, "2025", none⟩, ⟨1, "2025", none⟩], [], 2⟩ "2025" none).length = 2
  ∧ find_or_create_folder ⟨[⟨0, "2025", none⟩, ⟨1, "2025", none⟩], [], 2⟩ "2025" none
      = (⟨[⟨0, "2025", none⟩, ⟨1, "2025", none⟩], [], 2⟩, 0) := by
  decide

/-- C5 (confirmed).  Calling `create_folder_structure` a second time with
the same (year, semester, grade, section) against the storage produced by
the first call returns the same section-level folder id and leaves the
storage unchanged — no duplicate folders are created. -/
theorem ensure_path_idempotent (s0 : DriveState) (y sem g sec : String) :
    create_folder_structure (create_folder_structure s0 y sem g sec).1 y sem g sec
      = create_folder_structure s0 y sem g sec := by
  simp only [create_folder_structure]
  have S1 := focf_spec s0 y none
  generalize h1 : find_or_create_folder s0 y none = r1 at *
  obtain ⟨t1, f1, h1fold, h1files, h1head, h1fid⟩ := S1
  have S2 := focf_spec r1.1 sem (some r1.2)
  generalize h2 : find_or_create_folder r1.1 sem (some r1.2) = r2 at *
  obtain ⟨t2, f2, h2fold, h2files, h2head, h2fid⟩ := S2
  have S3 := focf_spec r2.1 g (some r2.2)
  generalize h3 : find_or_create_folder r2.1 g (some r2.2) = r3 at *
  obtain ⟨t3, f3, h3fold, h3files, h3head, h3fid⟩ := S3
  have S4 := focf_spec r3.1 sec (some r3.2)
  generalize h4 : find_or_create_folder r3.1 sec (some r3.2) = r4 at *
  obtain ⟨t4, f4, h4fold, h4files, h4head, h4fid⟩ := S4
  -- the folder list of the final state extends each intermediate one
  have ext1 : r4.1.folders = r1.1.folders ++ (t2 ++ (t3 ++ t4)) := by
    rw [h4fold, h3fold, h2fold, List.append_assoc, List.append_assoc]
  have ext2 : r4.1.folders = r2.1.folders ++ (t3 ++ t4) := by
    rw [h4fold, h3fold, List.append_assoc]
  have ext3 : r4.1.folders = r3.1.folders ++ t4 := h4fold
  -- each step of the second call finds the first call's folder again
  have e1 : find_or_create_folder r4.1 y none = (r4.1, r1.2) := by
    rw [← h1fid]
    exact focf_extend r1.1 r4.1 y none f1 _ h1head ext1
  have e2 : find_or_create_folder r4.1 sem (some r1.2) = (r4.1, r2.2) := by
    rw [← h2fid]
    exact focf_extend r2.1 r4.1 sem (some r1.2) f2 _ h2head ext2
  have e3 : find_or_create_folder r4.1 g (some r2.2) = (r4.1, r3.2) := by
    rw [← h3fid]
    exact focf_extend r3.1 r4.1 g (some r2.2) f3 _ h3head ext3
  have e4 : find_or_create_folder r4.1 sec (some r3.2) = (r4.1, r4.2) := by
    rw [← h4fid]
    exact focf_of_head r4.1 sec (some r3.2) f4 h4head
  simp only [e1, e2, e3, e4, Prod.mk.eta]

/-- When validation passes and the two Drive calls succeed, the workflow's
storage state is the folder-structure result plus the one uploaded,
shared file (whatever the database insert then does). -/
lemma process_submission_ok_drive (drive : DriveState) (db : List Submission)
    (y sem g sec ts : String) (inp : FormInput) (dbE : Option String)
    (hv : validationErrors inp = []) :
    (process_submission drive db y sem g sec inp ⟨none, none, dbE⟩ ts).drive =
      { (create_folder_structure drive y sem g sec).1 with
        files := (create_folder_structure drive y sem g sec).1.files ++
          [⟨(create_folder_structure drive y sem g sec).1.nextId,
            generated_file_name inp.student_name inp.project_title,
            (create_folder_structure drive y sem g sec).2,
            (inp.file.map (·.content)).getD [], [⟨"anyone", "reader"⟩]⟩],
        nextId := (create_folder_structure drive y sem g sec).1.nextId + 1 } := by
  have hcond : ¬(validationErrors inp ≠ []) := by simp [hv]
  simp only [process_submission]
  rw [if_neg hcond]
  cases dbE <;> rfl

/-- C9 (confirmed).  `upload_file_to_drive` creates the file under the
target folder with the given name and content and then grants the
`type: anyone / role: reader` permission, returning the shareable view
link; a failing create leaves the state untouched, a failing permission
grant keeps the already-created (unshared) file, and both failures are
wrapped as `فشل رفع الملف: ...`. -/
theorem upload_file_behavior (s : DriveState) (content : List Nat)
    (fname : String) (folderId : Nat) :
    (upload_file_to_drive s content fname folderId none none =
      ({ s with
          files := s.files ++
            [⟨s.nextId, fname, folderId, content, [⟨"anyone", "reader"⟩]⟩],
          nextId := s.nextId + 1 },
        .ok (webViewLink s.nextId)))
  ∧ (∀ e pe, upload_file_to_drive s content fname folderId (some e) pe =
      (s, .error ("فشل رفع الملف: " ++ e)))
  ∧ (∀ e, upload_file_to_drive s content fname folderId none (some e) =
      ({ s with
          files := s.files ++ [⟨s.nextId, fname, folderId, content, []⟩],
          nextId := s.nextId + 1 },
        .error ("فشل رفع الملف: " ++ e))) :=
  ⟨rfl, fun _ _ => rfl, fun _ => rfl⟩

/-- C4 (confirmed).  On every successful submission the uploaded file's
name is the student name with each space replaced by an underscore,
an underscore, the first 30 characters of the title (spaces kept), and
`.pdf`; in particular the spec's concrete example evaluates as claimed. -/
theorem upload_name_formula :
    (∀ (drive : DriveState) (db : List Submission) (y sem g sec ts : String)
        (inp : FormInput), validationErrors inp = [] →
      ∃ fl, fl ∈ (process_submission drive db y sem g sec inp noFaults ts).drive.files ∧
        fl.name = pyReplaceSpaces inp.student_name ++ "_"
          ++ pySlice30 inp.project_title ++ ".pdf")
  ∧ generated_file_name "Ahmed Ali Omar" "Renewable Energy and Its Future Impact"
      = "Ahmed_Ali_Omar_Renewable Energy and Its Futur.pdf" := by
  constructor
  · intro drive db y sem g sec ts inp hv
    refine ⟨⟨(create_folder_structure drive y sem g sec).1.nextId,
      generated_file_name inp.student_name inp.project_title,
      (create_folder_structure drive y sem g sec).2,
      (inp.file.map (·.content)).getD [], [⟨"anyone", "reader"⟩]⟩, ?_, rfl⟩
    simp only [noFaults]
    rw [process_submission_ok_drive drive db y sem g sec ts inp none hv]
    simp
  · rfl

/-- C4 witness: the spec's example input run through the workflow. -/
theorem upload_name_formula_w :
    ∃ fl, fl ∈ (process_submission ⟨[], [], 0⟩ [] "2025" "S1" "G10" "A"
        ⟨"Ahmed Ali Omar", "Renewable Energy and Its Future Impact", some ⟨100, [1, 2]⟩⟩
        noFaults "T").drive.files ∧
      fl.name = pyReplaceSpaces "Ahmed Ali Omar" ++ "_"
        ++ pySlice30 "Renewable Energy and Its Future Impact" ++ ".pdf" :=
  upload_name_formula.1 ⟨[], [], 0⟩ [] "2025" "S1" "G10" "A" "T"
    ⟨"Ahmed Ali Omar", "Renewable Energy and Its Future Impact", some ⟨100, [1, 2]⟩⟩
    (by decide)

/-- C6 (confirmed).  When folder resolution and upload succeed but the
database insert fails, the workflow keeps the created folders and the
uploaded (shared) file in storage, leaves the database untouched, shows
the failure with the underlying wrapped message, and shows no success. -/
theorem db_failure_no_rollback (drive : DriveState) (db : List Submission)
    (y sem g sec ts : String) (inp : FormInput) (e : String)
    (hv : validationErrors inp = []) :
    process_submission drive db y sem g sec inp ⟨none, none, some e⟩ ts =
      { drive := { (create_folder_structure drive y sem g sec).1 with
          files := (create_folder_structure drive y sem g sec).1.files ++
            [⟨(create_folder_structure drive y sem g sec).1.nextId,
              generated_file_name inp.student_name inp.project_title,
              (create_folder_structure drive y sem g sec).2,
              (inp.file.map (·.content)).getD [], [⟨"anyone", "reader"⟩]⟩],
          nextId := (create_folder_structure drive y sem g sec).1.nextId + 1 },
        db := db,
        valErrors := [],
        failureMsg := some ("❌ حدث خطأ أثناء رفع المشروع: "
          ++ ("فشل حفظ البيانات: " ++ e)),
        successShown := false,
        fileUrl := none,
        calls := [.folderResolution, .fileUpload, .dbInsert] } := by
  have hcond : ¬(validationErrors inp ≠ []) := by simp [hv]
  simp only [process_submission]
  rw [if_neg hcond]
  rfl

/-- C6 witness: a concrete run in which only the database insert fails. -/
theorem db_failure_no_rollback_w :
    (process_submission ⟨[], [], 0⟩ [] "Y" "S" "G" "A"
      ⟨"Ahmed Ali", "Title", some ⟨5, [1]⟩⟩ ⟨none, none, some "boom"⟩ "T").successShown
      = false := by
  rw [db_failure_no_rollback ⟨[], [], 0⟩ [] "Y" "S" "G" "A" "T"
    ⟨"Ahmed Ali", "Title", some ⟨5, [1]⟩⟩ "boom" (by decide)]
